import Mathlib

/-!
Verification development for the elasticsearch7-mcp-server-py tool-resolution
pipeline.  The Python sources under `src/` are embedded shallowly: pure
functions become Lean functions, the in-place mutation of the tool registry
performed by `tool_filter.py` is made explicit by returning the post-call
registry state, fallible calls are `Except`-valued, and external
collaborators (the Elasticsearch client, YAML/JSON parsing from the helper
module `utils.py` which is not part of the sources) are passed in as explicit
inputs or modelled from the specification where so noted.
-/

/-! ## Logging -/

/-- Log severity of the Python `logging` calls that the embedded code makes. -/
inductive LogLevel where
  | info
  | warning
  | error
deriving DecidableEq, Repr

/-- One log record: level and rendered message. -/
structure LogEntry where
  level : LogLevel
  msg : String
deriving DecidableEq, Repr

/-! ## Semantic versions (the `semver.Version` values used by `helper.py`) -/

/-- A parsed semantic version, `major.minor.patch`. -/
structure Version where
  major : Nat
  minor : Nat
  patch : Nat
deriving DecidableEq, Repr

/-- Strict semantic-version order (major, then minor, then patch). -/
def Version.ltb (a b : Version) : Bool :=
  if a.major < b.major then true
  else if b.major < a.major then false
  else if a.minor < b.minor then true
  else if b.minor < a.minor then false
  else Nat.blt a.patch b.patch

/-- Digits-only decimal parse used by the semantic-version parse. -/
def parseNatDigits : List Char → Option Nat
  | [] => none
  | cs =>
    if cs.all (fun c => c.isDigit) then
      some (cs.foldl (fun n c => n * 10 + (c.toNat - 48)) 0)
    else none

/-- Split a character list on `'.'` (the string's dot-separated groups). -/
def splitOnDot (cs : List Char) : List (List Char) :=
  match cs with
  | [] => [[]]
  | c :: rest =>
    let r := splitOnDot rest
    if c = '.' then [] :: r
    else
      match r with
      | [] => [[c]]
      | g :: gs => (c :: g) :: gs

/-- Embeds `semver.Version.parse` for the `MAJOR.MINOR.PATCH` shape the
backend reports; any other shape is a parse failure (the library raises
`ValueError`, which `get_elasticsearch_version` catches). -/
def parseSemver (s : String) : Option Version :=
  match splitOnDot s.toList with
  | [a, b, c] =>
    match parseNatDigits a, parseNatDigits b, parseNatDigits c with
    | some x, some y, some z => some ⟨x, y, z⟩
    | _, _, _ => none
  | _ => none

/-- Python `str()` of the resolved version (`None` for the unresolved
sentinel), as interpolated into log and error messages. -/
def versionStr : Option Version → String
  | none => "None"
  | some v => toString v.major ++ "." ++ toString v.minor ++ "." ++ toString v.patch

/-! ## JSON documents (the structured values moved between client and tools) -/

/-- JSON-like values: the shape of backend responses, schema documents and
tool arguments. -/
inductive Json where
  | null
  | bool (b : Bool)
  | num (n : Int)
  | str (s : String)
  | arr (elems : List Json)
  | obj (fields : List (String × Json))

/-- First-match lookup in an association list; the embedding of reading a
Python `dict` whose insertion discipline keeps keys unique. -/
def dictGet? {α : Type} : List (String × α) → String → Option α
  | [], _ => none
  | (k', v) :: rest, k => if k' = k then some v else dictGet? rest k

/-- Python `d[k] = v`: replace the value at an existing key in place,
otherwise append the binding (insertion order preserved). -/
def dictInsert {α : Type} : List (String × α) → String → α → List (String × α)
  | [], k, v => [(k, v)]
  | (k', v') :: rest, k, v =>
    if k' = k then (k, v) :: rest else (k', v') :: dictInsert rest k v

mutual

/-- Embeds `json.dumps` up to whitespace: the Python calls pass `indent=2`
and pretty-print, but no claim depends on layout, only on the surrounding
fixed message text. -/
def Json.dumps : Json → String
  | .null => "null"
  | .bool true => "true"
  | .bool false => "false"
  | .num n => toString n
  | .str s => "\"" ++ s ++ "\""
  | .arr xs => "[" ++ Json.dumpsArr xs ++ "]"
  | .obj fs => "\x7b" ++ Json.dumpsObj fs ++ "\x7d"

/-- Comma-joined rendering of array elements. -/
def Json.dumpsArr : List Json → String
  | [] => ""
  | [x] => Json.dumps x
  | x :: y :: rest => Json.dumps x ++ ", " ++ Json.dumpsArr (y :: rest)

/-- Comma-joined rendering of object fields. -/
def Json.dumpsObj : List (String × Json) → String
  | [] => ""
  | [(k, v)] => "\"" ++ k ++ "\": " ++ Json.dumps v
  | (k, v) :: f :: rest => "\"" ++ k ++ "\": " ++ Json.dumps v ++ ", " ++ Json.dumpsObj (f :: rest)

end

/-- Python `str()` of a decoded JSON value, as used inside f-strings by
`get_shards_tool` (scalar cases are exact; nested containers are rendered via
`dumps`, an approximation of Python `repr` that no claim depends on). -/
def pyStr : Json → String
  | .str s => s
  | .null => "None"
  | .bool true => "True"
  | .bool false => "False"
  | .num n => toString n
  | .arr xs => Json.dumps (.arr xs)
  | .obj fs => Json.dumps (.obj fs)

/-- Python `f'{names}'` for a list of strings (the filter-result log line). -/
def pyStrList (xs : List String) : String :=
  "[" ++ String.intercalate ", " (xs.map (fun s => "'" ++ s ++ "'")) ++ "]"

/-! ## Regular expressions (`re.match` with `re.IGNORECASE`)

`process_regex_patterns` (tool_filter.py:19-26) calls
`re.match(regex, tool_name, re.IGNORECASE)`.  Patterns are represented as
abstract syntax of the regex fragment the configuration surface uses
(literal characters, `.`, concatenation, alternation, Kleene star); the
string-level pattern syntax is parsed by the external `re` module.  The
matcher below is a Brzozowski-derivative matcher; case-insensitivity is
built into the character rule, and `re.match` anchoring at the start (only)
is captured by accepting whenever some prefix of the input matches. -/

/-- Regex abstract syntax. -/
inductive Regex where
  | fail
  | eps
  | chr (c : Char)
  | dot
  | seq (a b : Regex)
  | alt (a b : Regex)
  | star (a : Regex)

/-- Does the pattern accept the empty string? -/
def Regex.nullable : Regex → Bool
  | .fail => false
  | .eps => true
  | .chr _ => false
  | .dot => false
  | .seq a b => a.nullable && b.nullable
  | .alt a b => a.nullable || b.nullable
  | .star _ => true

/-- Brzozowski derivative; literal characters compare case-insensitively
(`re.IGNORECASE`), and `.` matches any character except a newline. -/
def Regex.deriv (r : Regex) (c : Char) : Regex :=
  match r with
  | .fail => .fail
  | .eps => .fail
  | .chr d => if d.toLower = c.toLower then .eps else .fail
  | .dot => if c = '\n' then .fail else .eps
  | .seq a b =>
    if a.nullable then .alt (.seq (a.deriv c) b) (b.deriv c) else .seq (a.deriv c) b
  | .alt a b => .alt (a.deriv c) (b.deriv c)
  | .star a => .seq (a.deriv c) (.star a)

/-- Does the pattern match some prefix of the character list? -/
def Regex.matchAtStart : Regex → List Char → Bool
  | r, [] => r.nullable
  | r, c :: cs => r.nullable || (r.deriv c).matchAtStart cs

/-- Truthiness of `re.match(pattern, s, re.IGNORECASE)`: the pattern matches
at the start of `s` (any prefix, case-insensitively). -/
def re_match (r : Regex) (s : String) : Bool :=
  r.matchAtStart s.toList

/-! ## The tool registry data model -/

/-- Schema documents as stored in the registry: the `properties` mapping (the
part `get_tools` strips), plus the remaining top-level schema fields, which
the pipeline never touches.  `properties := none` embeds a schema dict with
no `'properties'` key. -/
structure Schema where
  properties : Option (List (String × Json))
  extra : List (String × Json)

/-- One registry entry (tools.py `TOOL_REGISTRY` values).  The handler and
pydantic-model references carried by the Python dicts are modelled separately
for the gateway claims; `http_methods` is the comma-separated verb string the
registry stores (e.g. `"GET, POST"`), and absent `min_version`/`max_version`
keys are `none` (the code reads them with `.get(..., '')`). -/
structure ToolInfo where
  display_name : String
  description : String
  input_schema : Schema
  min_version : Option String
  max_version : Option String
  http_methods : String

/-- The registry: a Python dict in insertion order with unique keys. -/
abbrev Registry := List (String × ToolInfo)

/-- Python `'GET' not in http_methods` on the registry's verb string is a
substring test; this is its positive form. -/
def hasGET (s : String) : Bool :=
  goGET s.toList
where
  goGET : List Char → Bool
    | 'G' :: 'E' :: 'T' :: _ => true
    | _ :: rest => goGET rest
    | [] => false

/-! ## Spec-modelled utilities (`tools/utils.py` is not among the sources) -/

/-- Modelled from the spec: `utils.parse_comma_separated` is not under
`src/`; section 6 describes the environment-style settings as
"comma-separated-string forms" of the filter lists.  Splits on commas, trims
whitespace, and drops empty items. -/
def parse_comma_separated (s : String) : List String :=
  ((s.splitOn ",").map (fun x => x.trim)).filter (fun x => !(x == ""))

/-- Modelled from the spec: `utils.validate_tools` is not under `src/`.
Section 4.4 step 4: every collected name is validated case-insensitively
against the display-name map (lowercased display name to registry key, built
by `process_tool_filter` at entry); unknown names are logged as warnings and
ignored.  A validated name resolves to the owning registry key, lowercased,
which the removal step (tool_filter.py:144-146) compares against lowercased
registry keys.  The third argument names the filter source for the warning. -/
def validate_tools (names : List String) (display_map : List (String × String))
    (source : String) : List String × List LogEntry :=
  names.foldl
    (fun acc n =>
      match dictGet? display_map n.toLower with
      | some key => (acc.1 ++ [key.toLower], acc.2)
      | none =>
        (acc.1,
         acc.2 ++ [⟨.warning, "Tool '" ++ n ++ "' in " ++ source ++ " is not a valid tool"⟩]))
    ([], [])

/-- Modelled from the spec: `utils.is_tool_compatible` is not under `src/`.
Section 4.2: an unresolved version is compatible (fail-open); otherwise the
version must lie within the inclusive `[min_version, max_version]` bounds
under semantic-version order, an absent bound being unbounded.  Registry
bounds are strings; an absent key or a string that is not a semantic version
(the registry default is `''`) imposes no bound. -/
def is_tool_compatible (version : Option Version) (info : ToolInfo) : Bool :=
  match version with
  | none => true
  | some v =>
    (match info.min_version with
     | none => true
     | some s =>
       match parseSemver s with
       | none => true
       | some mn => !(Version.ltb v mn)) &&
    (match info.max_version with
     | none => true
     | some s =>
       match parseSemver s with
       | none => true
       | some mx => !(Version.ltb mx v))

/-- Modelled from the spec: `tools/tool_params.py` is not under `src/`.
`baseToolArgs` is the shared per-call argument model whose field names
`get_tools` strips from advertised schemas (tool_filter.py:215); the one
shared field visible at the interface boundary is the cluster selector that
`client.py` reads (`args.elasticsearch_cluster_name`). -/
def baseToolArgsFields : List String := ["elasticsearch_cluster_name"]

/-! ## `tools/tool_filter.py` -/

/-- Embeds `process_regex_patterns` (tool_filter.py:19-26): for every pattern
in order, collect every tool name (in order) the pattern matches at the start,
case-insensitively. -/
def process_regex_patterns (regex_list : List Regex) (tool_names : List String) : List String :=
  match regex_list with
  | [] => []
  | r :: rest => tool_names.filter (fun n => re_match r n) ++ process_regex_patterns rest tool_names

/-- Embeds `apply_write_filter` (tool_filter.py:29-34).  The Python function
pops, in place, every entry whose `http_methods` value does not contain
`'GET'` (a substring test on the registry's comma-separated verb string); the
embedding returns the post-state. -/
def apply_write_filter (registry : Registry) : Registry :=
  registry.filter (fun p => hasGET p.2.http_methods)

/-- Embeds `process_categories` (tool_filter.py:37-45): expand each disabled
category through the category map, warning about (and skipping) unknown
category names. -/
def process_categories (category_list : List String)
    (category_to_tools : List (String × List String)) : List String × List LogEntry :=
  category_list.foldl
    (fun acc c =>
      match dictGet? category_to_tools c with
      | some ts => (acc.1 ++ ts, acc.2)
      | none =>
        (acc.1, acc.2 ++ [⟨.warning, "Category '" ++ c ++ "' not found in tool categories"⟩]))
    ([], [])

/-- The `settings` mapping of a filter configuration file
(`tool_filters.settings`); `allow_write := none` embeds a settings dict
without the `allow_write` key (read with `.get('allow_write', True)`). -/
structure SettingsSection where
  allow_write : Option Bool

/-- The `tool_filters` section of a filter configuration file, with the
missing-key defaults of tool_filter.py:88-93 folded in; `settings := none`
embeds both a missing and an empty (falsy) `settings` mapping. -/
structure ToolFiltersSection where
  disabled_tools : List String
  disabled_categories : List String
  disabled_tools_regex : List Regex
  settings : Option SettingsSection

/-- The parsed filter configuration document (section 6 of the spec):
`load_yaml_config` lives in `utils.py`, which is not among the sources, so
the loaded document is passed to the embedding directly; `none` stands for a
falsy load result (no path, missing file, or malformed/empty YAML). -/
structure FileConfig where
  tool_category : List (String × List String)
  tool_filters : ToolFiltersSection

/-- The `allow_write` value after config processing (tool_filter.py:93-95):
a truthy (nonempty) `settings` mapping overrides the argument with
`settings.get('allow_write', True)`; otherwise the argument stands. -/
def effAllowWrite (config : Option FileConfig) (allow_write : Option Bool) : Option Bool :=
  match config with
  | some c =>
    match c.tool_filters.settings with
    | some st => some (match st.allow_write with | some b => b | none => true)
    | none => allow_write
  | none => allow_write

/-- Python truthiness of the `allow_write` local at tool_filter.py:115
(`None` and `False` both fail the `if not allow_write` test's negation). -/
def truthyAllowWrite : Option Bool → Bool
  | some b => b
  | none => false

/-- The filter inputs of `process_tool_filter` after merging the config file
with the environment-derived arguments (tool_filter.py:80-112), plus the
log entries that merging emits. -/
structure EffFilters where
  category_to_tools : List (String × List String)
  disabled_tools_list : List String
  disabled_category_list : List String
  disabled_regex_list : List Regex
  aw : Option Bool
  catlog : List LogEntry

/-- Embeds tool_filter.py:80-112: extract the config document's lists and
settings, then extend them from the environment-derived arguments (empty
strings are falsy and contribute nothing; a malformed category JSON string
logs a warning and contributes nothing).  `jsonLoads` is the external
`json.loads` restricted to the category-map shape. -/
def resolve_filters (jsonLoads : String → Option (List (String × List String)))
    (disabled_tools tool_categories disabled_categories : Option String)
    (disabled_tools_regex : Option (List Regex)) (allow_write : Option Bool)
    (config : Option FileConfig) : EffFilters :=
  let category_to_tools0 := match config with | some c => c.tool_category | none => []
  let disabled_tools_list0 := match config with | some c => c.tool_filters.disabled_tools | none => []
  let disabled_category_list0 := match config with | some c => c.tool_filters.disabled_categories | none => []
  let disabled_regex_list0 := match config with | some c => c.tool_filters.disabled_tools_regex | none => []
  let aw := effAllowWrite config allow_write
  let catPair :=
    match tool_categories with
    | some s =>
      if s = "" then (category_to_tools0, ([] : List LogEntry))
      else
        match jsonLoads s with
        | some m =>
          (m.foldl (fun acc (p : String × List String) => dictInsert acc p.1 p.2)
            category_to_tools0, [])
        | none => (category_to_tools0, [⟨.warning, "Invalid JSON in tool_categories: " ++ s⟩])
    | none => (category_to_tools0, [])
  let disabled_tools_list :=
    disabled_tools_list0 ++
      (match disabled_tools with
       | some s => if s = "" then [] else parse_comma_separated s
       | none => [])
  let disabled_category_list :=
    disabled_category_list0 ++
      (match disabled_categories with
       | some s => if s = "" then [] else parse_comma_separated s
       | none => [])
  let disabled_regex_list :=
    disabled_regex_list0 ++ (match disabled_tools_regex with | some l => l | none => [])
  ⟨catPair.1, disabled_tools_list, disabled_category_list, disabled_regex_list, aw, catPair.2⟩

/-- The display-name lookup built at `process_tool_filter` entry
(tool_filter.py:70-72): lowercased display name to registry key, later
entries overwriting earlier ones as in a dict comprehension. -/
def mkDisplayMap (registry : Registry) : List (String × String) :=
  registry.foldl (fun m p => dictInsert m p.2.display_name.toLower p.1) []

/-- Embeds the disabling phase of `process_tool_filter`
(tool_filter.py:118-146) on the registry as it stands after the write
filter: expand disabled categories, collect regex matches over the
*current* display names, validate all three name collections against the
entry-time display-name map, and, when any collection is nonempty, remove
every tool whose lowercased key is among the validated names.  Returns the
surviving registry and the warnings emitted. -/
def disable_phase (display_map : List (String × String)) (f : EffFilters)
    (registry1 : Registry) : Registry × List LogEntry :=
  let catPair := process_categories f.disabled_category_list f.category_to_tools
  let current_tool_names := registry1.map (fun p => p.2.display_name)
  let disabled_from_regex := process_regex_patterns f.disabled_regex_list current_tool_names
  if f.disabled_tools_list.isEmpty && catPair.1.isEmpty && disabled_from_regex.isEmpty then
    (registry1, catPair.2)
  else
    let v1 := validate_tools f.disabled_tools_list display_map "disabled_tools"
    let v2 := validate_tools catPair.1 display_map "disabled_categories"
    let v3 := validate_tools disabled_from_regex display_map "disabled_tools_regex"
    let all_disabled := v1.1 ++ v2.1 ++ v3.1
    (registry1.filter (fun p => !(all_disabled.contains p.1.toLower)),
     catPair.2 ++ v1.2 ++ v2.2 ++ v3.2)

/-- Result of `process_tool_filter`: the post-call state of the registry it
mutates in place, and the log it emitted. -/
structure PTFResult where
  registry : Registry
  log : List LogEntry

/-- Embeds `process_tool_filter` (tool_filter.py:48-155).  The Python
function filters `tool_registry` in place; the embedding returns the
post-state.  `config` is the result of `load_yaml_config(filter_path)`
(`utils.py`, not among the sources) and `filter_path` is kept for the source
line of the summary log.  The `try`/`except` wrapper around the body
(tool_filter.py:68,154-155) guards against malformed dynamic values (e.g. a
registry entry without a `display_name` key); no such state is representable
in this embedding, so the handler is unreachable here. -/
def process_tool_filter (jsonLoads : String → Option (List (String × List String)))
    (disabled_tools tool_categories disabled_categories : Option String)
    (disabled_tools_regex : Option (List Regex)) (allow_write : Option Bool)
    (filter_path : Option String) (config : Option FileConfig)
    (tool_registry : Registry) : PTFResult :=
  let display_map := mkDisplayMap tool_registry
  let f := resolve_filters jsonLoads disabled_tools tool_categories disabled_categories
    disabled_tools_regex allow_write config
  let registry1 :=
    if truthyAllowWrite f.aw then tool_registry else apply_write_filter tool_registry
  let d := disable_phase display_map f registry1
  let source := match filter_path with | some p => p | none => "environment variables"
  ⟨d.1,
   f.catlog ++ d.2 ++
     [⟨.info, "Applied tool filter from " ++ source⟩,
      ⟨.info, "Available tools after filtering: " ++
        pyStrList (d.1.map (fun p => p.2.display_name))⟩]⟩

/-- The five environment variables read by `get_tools`
(tool_filter.py:183-189), already converted as the code converts them: the
three list-valued settings are the raw strings, the regex setting is given as
its parsed pattern list (comma-splitting and pattern parsing of that one
string are external `re` concerns no claim depends on), and `allow_write` is
the boolean test `os.getenv(..., 'true').lower() == 'true'`. -/
structure EnvConfig where
  disabled_tools : String
  tool_categories : String
  disabled_categories : String
  disabled_tools_regex : List Regex
  allow_write : Bool

/-- The process environment with none of the five variables set:
empty strings, and `allow_write` defaulting to `true`. -/
def defaultEnv : EnvConfig := ⟨"", "", "", [], true⟩

/-- Python `any(env_config.values())` (tool_filter.py:192): true when any of
the five converted values is truthy. -/
def envAny (e : EnvConfig) : Bool :=
  (if e.disabled_tools = "" then false else true) ||
  (if e.tool_categories = "" then false else true) ||
  (if e.disabled_categories = "" then false else true) ||
  (if e.disabled_tools_regex.isEmpty then false else true) ||
  e.allow_write

/-- The `process_tool_filter` call made by `get_tools` (tool_filter.py:196-200):
with a nonempty config path, the dict comprehension drops every
environment-derived keyword argument and only `filter_path` is passed;
otherwise all five environment values are passed and no file is loaded
(`load_yaml_config(None)` is falsy). -/
def get_tools_filtered (jsonLoads : String → Option (List (String × List String)))
    (loadedConfig : Option FileConfig) (env : EnvConfig) (config_file_path : String)
    (tool_registry : Registry) : PTFResult :=
  if config_file_path = "" then
    process_tool_filter jsonLoads (some env.disabled_tools) (some env.tool_categories)
      (some env.disabled_categories) (some env.disabled_tools_regex) (some env.allow_write)
      none none tool_registry
  else
    process_tool_filter jsonLoads none none none none none
      (some config_file_path) loadedConfig tool_registry

/-- Strip the shared base-argument fields from a schema's `properties`
mapping (tool_filter.py:213-217); a schema without a `properties` key is left
alone. -/
def stripBaseFields (s : Schema) : Schema :=
  match s.properties with
  | none => s
  | some ps => ⟨some (ps.filter (fun p => !(baseToolArgsFields.contains p.1))), s.extra⟩

/-- The enabled-tools accumulation loop of `get_tools` (tool_filter.py:202-220):
walk the filtered registry in order, skip tools incompatible with the
resolved version, strip base fields from the advertised schema, and key the
result dict by *display name* (`enabled[tool_name] = tool_info` with
`tool_name = tool_info['display_name']`). -/
def enableFold (version : Option Version) (l : Registry) (acc : Registry) : Registry :=
  match l with
  | [] => acc
  | p :: rest =>
    if is_tool_compatible version p.2 then
      enableFold version rest
        (dictInsert acc p.2.display_name { p.2 with input_schema := stripBaseFields p.2.input_schema })
    else enableFold version rest acc

/-- Result of `get_tools`: the post-call state of the registry argument, the
returned enabled-tools dict, and the log. -/
structure GetToolsResult where
  registryAfter : Registry
  enabled : Registry
  log : List LogEntry

/-- Embeds `get_tools` (tool_filter.py:158-222).  External effects are
explicit inputs: `jsonLoads` is `json.loads` on category maps, `loadedConfig`
is the `load_yaml_config` result for `config_file_path`, `env` the five
environment variables, `version` the `get_elasticsearch_version` result.

The Python function mutates its registry argument: `process_tool_filter`
pops filtered entries in place, and, in the enable loop, `info.copy()` and
`tool_info['input_schema'].copy()` are *shallow* copies, so the copied
schema's `'properties'` value is the same dict object as the input
registry's; the `pop` calls at tool_filter.py:215-217 therefore also strip
the base fields from the input registry's nested `properties` mapping (for
every surviving, version-compatible tool).  `registryAfter` is that
post-call state of the registry argument. -/
def get_tools (jsonLoads : String → Option (List (String × List String)))
    (loadedConfig : Option FileConfig) (env : EnvConfig) (version : Option Version)
    (tool_registry : Registry) (mode : String) (config_file_path : String) : GetToolsResult :=
  if mode = "multi" then ⟨tool_registry, tool_registry, []⟩
  else
    let log0 : List LogEntry :=
      [⟨.info, "Connected ElasticSearch version: " ++ versionStr version⟩]
    let warnlog : List LogEntry :=
      if config_file_path ≠ "" ∧ envAny env = true then
        [⟨.warning, "Both config file and environment variables are set. Using config file."⟩]
      else []
    let ptf := get_tools_filtered jsonLoads loadedConfig env config_file_path tool_registry
    let registryAfter := ptf.registry.map (fun p =>
      if is_tool_compatible version p.2 then
        (p.1, { p.2 with input_schema := stripBaseFields p.2.input_schema })
      else p)
    ⟨registryAfter, enableFold version ptf.registry [], log0 ++ warnlog ++ ptf.log⟩

/-! ## `es_client/helper.py` -/

/-- Python `value[key]` on a decoded JSON value: a `KeyError` (whose `str` is
the quoted key) on a mapping without the key, a `TypeError` otherwise (its
message text approximated; only the failure itself matters to any claim). -/
def jGetKey (j : Json) (k : String) : Except String Json :=
  match j with
  | .obj fields =>
    match dictGet? fields k with
    | some v => Except.ok v
    | none => Except.error ("'" ++ k ++ "'")
  | _ => Except.error "value is not subscriptable by string key"

/-- Embeds `get_elasticsearch_version` (helper.py:60-70).  `infoResult` is
the outcome of `initialize_client(args)` followed by `client.info()`: `.ok`
with the decoded info document, or `.error` with the exception text of any
client-construction or transport failure.  The whole body is inside
`try`/`except Exception`: any failure — transport, missing
`['version']['number']` keys, a non-string version, or a semver parse
failure — is logged at error level and becomes the `None` sentinel. -/
def es_version_attempt (infoResult : Except String Json) : Except String Version := do
  let resp ← infoResult
  let ver ← jGetKey resp "version"
  let num ← jGetKey ver "number"
  match num with
  | .str s =>
    match parseSemver s with
    | some v => Except.ok v
    | none => Except.error (s ++ " is not valid SemVer string")
  | _ => Except.error "expected str or bytes-like object"

/-- The `try`/`except` wrapper of helper.py:64-70 around `es_version_attempt`. -/
def get_elasticsearch_version (infoResult : Except String Json) :
    Option Version × List LogEntry :=
  match es_version_attempt infoResult with
  | .ok v => (some v, [])
  | .error e => (none, [⟨.error, "Error getting Elasticsearch version: " ++ e⟩])

/-! ## `tools/tools.py` -/

/-- Modelled from the spec: `tools/tool_params.py` is not among the sources.
Argument model for the index-listing tool: the shared cluster selector, the
optional `index` (empty string falsy when absent) and the `include_detail`
flag visible in tools.py:50-69. -/
structure ListIndicesArgs where
  elasticsearch_cluster_name : String
  index : String
  include_detail : Bool

/-- Modelled from the spec: `tools/tool_params.py` is not among the sources.
Argument model for the mapping tool. -/
structure GetIndexMappingArgs where
  elasticsearch_cluster_name : String
  index : String

/-- Modelled from the spec: `tools/tool_params.py` is not among the sources.
Argument model for the search tool. -/
structure SearchIndexArgs where
  elasticsearch_cluster_name : String
  index : String
  query : Json

/-- Modelled from the spec: `tools/tool_params.py` is not among the sources.
Argument model for the shards tool. -/
structure GetShardsArgs where
  elasticsearch_cluster_name : String
  index : String

/-- Modelled from the spec: the `model_json_schema()` of a pydantic argument
model has a `properties` mapping keyed by the model's field names (the
per-field sub-schemas are opaque here); shared base fields appear alongside
the tool's own. -/
def ListIndicesArgsSchema : Schema :=
  ⟨some [("elasticsearch_cluster_name", Json.obj []), ("index", Json.obj []),
         ("include_detail", Json.obj [])], []⟩

/-- Modelled from the spec: schema of `GetIndexMappingArgs`. -/
def GetIndexMappingArgsSchema : Schema :=
  ⟨some [("elasticsearch_cluster_name", Json.obj []), ("index", Json.obj [])], []⟩

/-- Modelled from the spec: schema of `SearchIndexArgs`. -/
def SearchIndexArgsSchema : Schema :=
  ⟨some [("elasticsearch_cluster_name", Json.obj []), ("index", Json.obj []),
         ("query", Json.obj [])], []⟩

/-- Modelled from the spec: schema of `GetShardsArgs`. -/
def GetShardsArgsSchema : Schema :=
  ⟨some [("elasticsearch_cluster_name", Json.obj []), ("index", Json.obj [])], []⟩

/-- The `ListIndexTool` registry entry (tools.py:120-128). -/
def ListIndexToolInfo : ToolInfo :=
  ⟨"ListIndexTool",
   "Lists indices in the Elasticsearch cluster. By default, returns a filtered list of index names only to minimize response size. Set include_detail=true to return full metadata from cat.indices (docs.count, store.size, etc.). If an index parameter is provided, returns detailed information for that specific index including mappings and settings.",
   ListIndicesArgsSchema, some "7.0.0", none, "GET"⟩

/-- The `IndexMappingTool` registry entry (tools.py:129-136). -/
def IndexMappingToolInfo : ToolInfo :=
  ⟨"IndexMappingTool",
   "Retrieves index mapping and setting information for an index in Elasticsearch",
   GetIndexMappingArgsSchema, none, none, "GET"⟩

/-- The `SearchIndexTool` registry entry (tools.py:137-144). -/
def SearchIndexToolInfo : ToolInfo :=
  ⟨"SearchIndexTool",
   "Searches an index using a query written in query DSL in Elasticsearch",
   SearchIndexArgsSchema, none, none, "GET, POST"⟩

/-- The `GetShardsTool` registry entry (tools.py:145-152). -/
def GetShardsToolInfo : ToolInfo :=
  ⟨"GetShardsTool", "Gets information about shards in Elasticsearch",
   GetShardsArgsSchema, none, none, "GET"⟩

/-- The static registry `TOOL_REGISTRY` (tools.py:119-153). -/
def TOOL_REGISTRY : Registry :=
  [("ListIndexTool", ListIndexToolInfo),
   ("IndexMappingTool", IndexMappingToolInfo),
   ("SearchIndexTool", SearchIndexToolInfo),
   ("GetShardsTool", GetShardsToolInfo)]

/-- Embeds `check_tool_compatibility` (tools.py:22-43); `version` is the
`get_elasticsearch_version` result for the call's arguments.  Raises (as
`.error`) the version-mismatch message for an incompatible tool, or a
`KeyError` for a name missing from `TOOL_REGISTRY` (unreachable from the
handlers, which pass their own literal names). -/
def check_tool_compatibility (tool_name : String) (version : Option Version) :
    Except String Unit :=
  match dictGet? TOOL_REGISTRY tool_name with
  | none => Except.error ("'" ++ tool_name ++ "'")
  | some info =>
    if is_tool_compatible version info then Except.ok ()
    else
      let mn := match info.min_version with | some s => s | none => ""
      let mx := match info.max_version with | some s => s | none => ""
      let version_info : Option String :=
        if mn ≠ "" ∧ mx ≠ "" then some (mn ++ " to " ++ mx)
        else if mn ≠ "" then some (mn ++ " or later")
        else if mx ≠ "" then some ("up to " ++ mx)
        else none
      let base := "Tool '" ++ info.display_name ++
        "' is not supported for this Elasticsearch version (current version: " ++
        versionStr version ++ ")."
      Except.error
        (match version_info with
         | some vi => base ++ " Supported version: " ++ vi ++ "."
         | none => base)

/-- One returned content block, the dicts `{'type': 'text', 'text': ...}`
built by the handlers. -/
structure Content where
  type : String
  text : String

/-- The list comprehension of tools.py:60-64: iterating a decoded JSON value
as Python iterates it (list elements; keys of a mapping and characters of a
string are not dicts and are filtered out; scalars are not iterable and
raise `TypeError`), keeping each dict element's `'index'` value. -/
def extractIndexNames (indices : Json) : Except String (List Json) :=
  match indices with
  | .arr items =>
    Except.ok (items.filterMap (fun item =>
      match item with
      | .obj fields => dictGet? fields "index"
      | _ => none))
  | .obj _ => Except.ok []
  | .str _ => Except.ok []
  | _ => Except.error "object is not iterable"

/-- Embeds `list_indices_tool` (tools.py:46-71).  `version` is the resolver
result inside `check_tool_compatibility`; `getIndexR` and `listIndicesR` are
the outcomes of the backend calls `get_index(args)` and `list_indices(args)`
(`.error` carries the exception text of a transport failure).  The whole body
is one `try`/`except Exception` returning the prefixed error block. -/
def list_indices_attempt (version : Option Version) (args : ListIndicesArgs)
    (getIndexR listIndicesR : Except String Json) : Except String (List Content) := do
  let _ ← check_tool_compatibility "ListIndexTool" version
  if args.index ≠ "" then do
    let index_info ← getIndexR
    Except.ok [⟨"text", "Index information for " ++ args.index ++ ":\n" ++ index_info.dumps⟩]
  else do
    let indices ← listIndicesR
    if args.include_detail = false then do
      let names ← extractIndexNames indices
      Except.ok [⟨"text", "Indices:\n" ++ (Json.arr names).dumps⟩]
    else
      Except.ok [⟨"text", "All indices information:\n" ++ indices.dumps⟩]

/-- The `try`/`except` wrapper of tools.py:47,70-71 around the body above. -/
def list_indices_tool (version : Option Version) (args : ListIndicesArgs)
    (getIndexR listIndicesR : Except String Json) : List Content :=
  match list_indices_attempt version args getIndexR listIndicesR with
  | .ok blocks => blocks
  | .error e => [⟨"text", "Error listing indices: " ++ e⟩]

/-- Embeds `get_index_mapping_tool` (tools.py:74-82); `getMappingR` is the
backend `get_index_mapping(args)` outcome. -/
def get_index_mapping_attempt (version : Option Version) (args : GetIndexMappingArgs)
    (getMappingR : Except String Json) : Except String (List Content) := do
  let _ ← check_tool_compatibility "IndexMappingTool" version
  let mapping ← getMappingR
  Except.ok [⟨"text", "Mapping for " ++ args.index ++ ":\n" ++ mapping.dumps⟩]

/-- The `try`/`except` wrapper of tools.py:75,81-82 around the body above. -/
def get_index_mapping_tool (version : Option Version) (args : GetIndexMappingArgs)
    (getMappingR : Except String Json) : List Content :=
  match get_index_mapping_attempt version args getMappingR with
  | .ok blocks => blocks
  | .error e => [⟨"text", "Error getting mapping: " ++ e⟩]

/-- Embeds `search_index_tool` (tools.py:85-98); `searchR` is the backend
`search_index(args)` outcome. -/
def search_index_attempt (version : Option Version) (args : SearchIndexArgs)
    (searchR : Except String Json) : Except String (List Content) := do
  let _ ← check_tool_compatibility "SearchIndexTool" version
  let result ← searchR
  Except.ok [⟨"text", "Search results from " ++ args.index ++ ":\n" ++ result.dumps⟩]

/-- The `try`/`except` wrapper of tools.py:86,97-98 around the body above. -/
def search_index_tool (version : Option Version) (args : SearchIndexArgs)
    (searchR : Except String Json) : List Content :=
  match search_index_attempt version args searchR with
  | .ok blocks => blocks
  | .error e => [⟨"text", "Error searching index: " ++ e⟩]

/-- One line of the shard table (tools.py:111): every one of the eight keys
is read with `shard[...]`, so a missing key raises `KeyError` (str: the
quoted key) and a non-mapping row raises `TypeError`. -/
def formatShardRow (shard : Json) : Except String String :=
  match shard with
  | .obj fields =>
    let get := fun (k : String) =>
      match dictGet? fields k with
      | some v => Except.ok (pyStr v)
      | none => Except.error ("'" ++ k ++ "'")
    do
      let i ← get "index"
      let sh ← get "shard"
      let pr ← get "prirep"
      let st ← get "state"
      let d ← get "docs"
      let sto ← get "store"
      let ip ← get "ip"
      let nd ← get "node"
      Except.ok (i ++ " | " ++ sh ++ " | " ++ pr ++ " | " ++ st ++ " | " ++ d ++ " | " ++
        sto ++ " | " ++ ip ++ " | " ++ nd ++ "\n")
  | _ => Except.error "value is not subscriptable by string key"

/-- Embeds `get_shards_tool` (tools.py:101-115); `getShardsR` is the backend
`cat.shards` outcome.  A mapping result with an `'error'` key short-circuits
into the `'Error getting shards: '` block; otherwise the rows are formatted
(iterating a mapping yields its string keys, which are not subscriptable by
string, and iterating a scalar raises `TypeError`; both are caught by the
handler's `except` like every other failure). -/
def get_shards_attempt (version : Option Version) (args : GetShardsArgs)
    (getShardsR : Except String Json) : Except String (List Content) := do
  let header := "index | shard | prirep | state | docs | store | ip | node\n"
  let _ ← check_tool_compatibility "GetShardsTool" version
  let result ← getShardsR
  match result with
  | .obj fields =>
    match dictGet? fields "error" with
    | some v => Except.ok [⟨"text", "Error getting shards: " ++ pyStr v⟩]
    | none =>
      if fields.isEmpty then Except.ok [⟨"text", header⟩]
      else Except.error "string indices must be integers"
  | .arr shards => do
    let rows ← shards.foldlM (fun acc sh => do
      let r ← formatShardRow sh
      Except.ok (acc ++ r)) ""
    Except.ok [⟨"text", header ++ rows⟩]
  | .str s =>
    if s = "" then Except.ok [⟨"text", header⟩]
    else Except.error "string indices must be integers"
  | _ => Except.error "object is not iterable"

/-- The `try`/`except` wrapper of tools.py:102,114-115 around the body above. -/
def get_shards_tool (version : Option Version) (args : GetShardsArgs)
    (getShardsR : Except String Json) : List Content :=
  match get_shards_attempt version args getShardsR with
  | .ok blocks => blocks
  | .error e => [⟨"text", "Error getting shards information: " ++ e⟩]

/-! ## The gateways' `call_tool`
(`mcp_server_elasticsearch/stdio_server.py:50-63` and
`mcp_server_elasticsearch/streaming_server.py:57-70` are identical) -/

/-- A tool as the gateways hold it: the advertised display name (read with
`.get('display_name', key)`), the pydantic argument-model constructor
(`.error` embeds the `ValidationError` the constructor raises on a
structurally invalid arguments document), and the handler.  The registered
handlers (tools.py) return their blocks for every input, so the handler is
total here. -/
structure GatewayTool (α : Type) where
  display_name : Option String
  args_model : Json → Except String α
  func : α → List Content

/-- The raised exceptions that can leave `call_tool`. -/
inductive CallError where
  | unknownTool (msg : String)
  | validationError (msg : String)

/-- The display-name scan of call_tool: first entry whose advertised name
equals the requested name. -/
def find_tool {α : Type} (enabled : List (String × GatewayTool α)) (name : String) :
    Option (String × GatewayTool α) :=
  enabled.find? (fun p =>
    (match p.2.display_name with | some d => d | none => p.1) == name)

/-- Embeds `call_tool`.  `if not found_tool_key` uses Python truthiness, so an
empty-string key is treated as not found; `enabled_tools.get(found_tool_key)`
returns the found entry again (dict keys are unique); the pydantic
constructor's `ValidationError` and the unknown-name `ValueError` both
propagate out of the function uncaught. -/
def call_tool {α : Type} (enabled : List (String × GatewayTool α)) (name : String)
    (arguments : Json) : Except CallError (List Content) :=
  match find_tool enabled name with
  | none => Except.error (CallError.unknownTool ("Unknown or disabled tool: " ++ name))
  | some (key, tool) =>
    if key = "" then Except.error (CallError.unknownTool ("Unknown or disabled tool: " ++ name))
    else
      match tool.args_model arguments with
      | Except.error e => Except.error (CallError.validationError e)
      | Except.ok parsed => Except.ok (tool.func parsed)

/-! ## Helper lemmas on the dict model -/

/-- Keys after a dict assignment: the old keys, plus the assigned key. -/
theorem mem_keys_dictInsert {α : Type} (d : List (String × α)) (k n : String) (v : α) :
    n ∈ (dictInsert d k v).map Prod.fst ↔ n ∈ d.map Prod.fst ∨ n = k := by
  induction d with
  | nil => simp [dictInsert]
  | cons p rest ih =>
    obtain ⟨k', v'⟩ := p
    by_cases h : k' = k
    · subst h
      simp [dictInsert]
      tauto
    · simp [dictInsert, h, ih]
      tauto

/-- A successful dict lookup is a membership witness. -/
theorem dictGet?_mem {α : Type} {d : List (String × α)} {k : String} {v : α}
    (h : dictGet? d k = some v) : (k, v) ∈ d := by
  induction d with
  | nil => simp [dictGet?] at h
  | cons p rest ih =>
    obtain ⟨k', v'⟩ := p
    by_cases hk : k' = k
    · subst hk
      simp [dictGet?] at h
      subst h
      exact List.mem_cons_self _ _
    · simp [dictGet?, hk] at h
      exact List.mem_cons_of_mem _ (ih h)

/-- Keys of the enable loop's result: the accumulator's keys together with
the display names of the version-compatible tools of the walked registry. -/
theorem mem_keys_enableFold (version : Option Version) (l : Registry) (acc : Registry)
    (n : String) :
    n ∈ (enableFold version l acc).map Prod.fst ↔
      n ∈ acc.map Prod.fst ∨
        ∃ p ∈ l, is_tool_compatible version p.2 = true ∧ p.2.display_name = n := by
  induction l generalizing acc with
  | nil => simp [enableFold]
  | cons p rest ih =>
    by_cases hc : is_tool_compatible version p.2 = true
    · rw [show enableFold version (p :: rest) acc =
          enableFold version rest
            (dictInsert acc p.2.display_name
              { p.2 with input_schema := stripBaseFields p.2.input_schema }) from by
        simp [enableFold, hc]]
      rw [ih, mem_keys_dictInsert]
      constructor
      · rintro ((h | h) | ⟨q, hq, hcq, hdq⟩)
        · exact Or.inl h
        · exact Or.inr ⟨p, List.mem_cons_self _ _, hc, h.symm⟩
        · exact Or.inr ⟨q, List.mem_cons_of_mem _ hq, hcq, hdq⟩
      · rintro (h | ⟨q, hq, hcq, hdq⟩)
        · exact Or.inl (Or.inl h)
        · rcases List.mem_cons.mp hq with rfl | hq'
          · exact Or.inl (Or.inr hdq.symm)
          · exact Or.inr ⟨q, hq', hcq, hdq⟩
    · rw [show enableFold version (p :: rest) acc = enableFold version rest acc from by
        simp [enableFold, hc]]
      rw [ih]
      constructor
      · rintro (h | ⟨q, hq, hcq, hdq⟩)
        · exact Or.inl h
        · exact Or.inr ⟨q, List.mem_cons_of_mem _ hq, hcq, hdq⟩
      · rintro (h | ⟨q, hq, hcq, hdq⟩)
        · exact Or.inl h
        · rcases List.mem_cons.mp hq with rfl | hq'
          · exact absurd hcq hc
          · exact Or.inr ⟨q, hq', hcq, hdq⟩

/-! ## Claims -/

/-- C1: for every tool registry and every filter configuration (config file
path, environment filter settings, allow_write value), `get_tools` in
`'multi'` mode returns the full registry unchanged — no write-permission
filtering, no name/category/regex disabling, no version-compatibility
filtering and no schema stripping run (and the registry argument is not
mutated, and nothing is logged). -/
theorem get_tools_multi_unfiltered
    (jsonLoads : String → Option (List (String × List String)))
    (loadedConfig : Option FileConfig) (env : EnvConfig) (version : Option Version)
    (reg : Registry) (config_file_path : String) :
    get_tools jsonLoads loadedConfig env version reg "multi" config_file_path =
      ⟨reg, reg, []⟩ := rfl

/-- C2: `get_elasticsearch_version` never raises — a transport failure
produces the `None` sentinel plus exactly one error-level log entry, and
every unresolved result is accompanied by an error-level log; and with the
version unresolved, the compatibility check accepts every tool, so in
`get_tools` (single mode) every tool surviving filtering reaches the enabled
set (fail-open). -/
theorem get_elasticsearch_version_fail_open :
    (∀ e : String,
      get_elasticsearch_version (Except.error e) =
        (none, [⟨LogLevel.error, "Error getting Elasticsearch version: " ++ e⟩])) ∧
    (∀ r : Except String Json, (get_elasticsearch_version r).1 = none →
      ∃ m, (get_elasticsearch_version r).2 =
        [⟨LogLevel.error, "Error getting Elasticsearch version: " ++ m⟩]) ∧
    (∀ t : ToolInfo, is_tool_compatible none t = true) ∧
    (∀ (jsonLoads : String → Option (List (String × List String)))
       (loadedConfig : Option FileConfig) (env : EnvConfig) (path : String)
       (reg : Registry) (k : String) (t : ToolInfo),
      dictGet? (get_tools_filtered jsonLoads loadedConfig env path reg).registry k = some t →
      t.display_name ∈
        (get_tools jsonLoads loadedConfig env none reg "single" path).enabled.map Prod.fst) := by
  refine ⟨fun e => rfl, ?_, fun t => rfl, ?_⟩
  · intro r h
    unfold get_elasticsearch_version at h ⊢
    cases ha : es_version_attempt r with
    | ok v => rw [ha] at h; simp at h
    | error e => exact ⟨e, rfl⟩
  · intro jsonLoads loadedConfig env path reg k t h
    have hmem : (k, t) ∈ (get_tools_filtered jsonLoads loadedConfig env path reg).registry :=
      dictGet?_mem h
    have henabled : (get_tools jsonLoads loadedConfig env none reg "single" path).enabled =
        enableFold none (get_tools_filtered jsonLoads loadedConfig env path reg).registry [] := by
      unfold get_tools
      rw [if_neg (by decide)]
    rw [henabled, mem_keys_enableFold]
    exact Or.inr ⟨(k, t), hmem, rfl, rfl⟩

/-- Witness for C2 at concrete inputs: a concrete transport failure, and the
full default-environment single-mode run over the static registry with the
version unresolved, where `ListIndexTool` (which survives filtering) is
enabled. -/
theorem get_elasticsearch_version_fail_open_witness :
    get_elasticsearch_version (Except.error "connection refused") =
      (none, [⟨LogLevel.error, "Error getting Elasticsearch version: connection refused"⟩]) ∧
    "ListIndexTool" ∈
      (get_tools (fun _ => none) none defaultEnv none TOOL_REGISTRY "single" "").enabled.map
        Prod.fst :=
  ⟨get_elasticsearch_version_fail_open.1 "connection refused",
   get_elasticsearch_version_fail_open.2.2.2 (fun _ => none) none defaultEnv "" TOOL_REGISTRY
     "ListIndexTool" ListIndexToolInfo (by rfl)⟩

/-- The disabling phase only removes entries: every survivor was in the
registry it was given. -/
theorem mem_of_mem_disable_phase (dm : List (String × String)) (f : EffFilters)
    (r1 : Registry) (p : String × ToolInfo) (h : p ∈ (disable_phase dm f r1).1) : p ∈ r1 := by
  simp only [disable_phase] at h
  split at h
  · exact h
  · exact List.mem_of_mem_filter h

/-- With `allow_write` resolving falsy, `process_tool_filter` is the
disabling phase applied to the write-filtered registry. -/
theorem ptf_registry_write_filtered
    (jsonLoads : String → Option (List (String × List String)))
    (dt tc dc : Option String) (dtr : Option (List Regex)) (aw : Option Bool)
    (fp : Option String) (config : Option FileConfig) (reg : Registry)
    (h : truthyAllowWrite (effAllowWrite config aw) = false) :
    (process_tool_filter jsonLoads dt tc dc dtr aw fp config reg).registry =
      (disable_phase (mkDisplayMap reg)
        (resolve_filters jsonLoads dt tc dc dtr aw config) (apply_write_filter reg)).1 := by
  have haw : (resolve_filters jsonLoads dt tc dc dtr aw config).aw = effAllowWrite config aw :=
    rfl
  simp only [process_tool_filter, haw, h]
  simp

/-- C3: with `allow_write` resolving to false, every tool surviving
`process_tool_filter` passes the read-verb test (`'GET'` occurs in its
`http_methods`), and the write filter runs first: the result is exactly the
disabling phase applied to the write-filtered registry. -/
theorem process_tool_filter_allow_write_false
    (jsonLoads : String → Option (List (String × List String)))
    (dt tc dc : Option String) (dtr : Option (List Regex)) (aw : Option Bool)
    (fp : Option String) (config : Option FileConfig) (reg : Registry)
    (h : truthyAllowWrite (effAllowWrite config aw) = false) :
    (∀ p ∈ (process_tool_filter jsonLoads dt tc dc dtr aw fp config reg).registry,
        hasGET p.2.http_methods = true) ∧
    (process_tool_filter jsonLoads dt tc dc dtr aw fp config reg).registry =
      (disable_phase (mkDisplayMap reg)
        (resolve_filters jsonLoads dt tc dc dtr aw config) (apply_write_filter reg)).1 := by
  have hreg := ptf_registry_write_filtered jsonLoads dt tc dc dtr aw fp config reg h
  refine ⟨?_, hreg⟩
  intro p hp
  rw [hreg] at hp
  have h2 : p ∈ List.filter (fun q => hasGET q.2.http_methods) reg :=
    mem_of_mem_disable_phase _ _ _ _ hp
  simpa using List.of_mem_filter h2

/-- Write-filter scenario tools: `A` read-only, `B` write-only. -/
def writeScenarioA : ToolInfo := ⟨"A", "", ⟨none, []⟩, none, none, "GET"⟩

/-- The write tool of the scenario. -/
def writeScenarioB : ToolInfo := ⟨"B", "", ⟨none, []⟩, none, none, "PUT"⟩

/-- The spec's scenario registry with tools `{A: GET, B: PUT}`. -/
def writeScenarioReg : Registry := [("A", writeScenarioA), ("B", writeScenarioB)]

/-- Witness for C3: `allow_write=false` passed explicitly, no other filters;
the surviving tool `A` carries the read verb. -/
theorem process_tool_filter_allow_write_false_witness :
    truthyAllowWrite (effAllowWrite none (some false)) = false ∧
    hasGET writeScenarioA.http_methods = true :=
  ⟨rfl,
   (process_tool_filter_allow_write_false (fun _ => none) none none none none (some false)
       none none writeScenarioReg rfl).1 ("A", writeScenarioA) (by exact List.Mem.head _)⟩

/-- C4: in single mode, when a config-file path and truthy environment
settings are both supplied, the environment has zero effect on the outcome
(both the enabled set and the post-call registry state are independent of the
environment values) and the both-channels warning is recorded. -/
theorem get_tools_config_file_wins
    (jsonLoads : String → Option (List (String × List String)))
    (loadedConfig : Option FileConfig) (env env2 : EnvConfig) (version : Option Version)
    (reg : Registry) (path : String) (hpath : path ≠ "") (henv : envAny env = true) :
    (get_tools jsonLoads loadedConfig env version reg "single" path).enabled =
      (get_tools jsonLoads loadedConfig env2 version reg "single" path).enabled ∧
    (get_tools jsonLoads loadedConfig env version reg "single" path).registryAfter =
      (get_tools jsonLoads loadedConfig env2 version reg "single" path).registryAfter ∧
    (⟨LogLevel.warning,
      "Both config file and environment variables are set. Using config file."⟩ : LogEntry) ∈
      (get_tools jsonLoads loadedConfig env version reg "single" path).log := by
  have hf : ∀ e : EnvConfig, get_tools_filtered jsonLoads loadedConfig e path reg =
      process_tool_filter jsonLoads none none none none none (some path) loadedConfig reg := by
    intro e
    unfold get_tools_filtered
    rw [if_neg hpath]
  refine ⟨?_, ?_, ?_⟩
  · simp only [get_tools, hf]
    rw [if_neg (by decide : ¬("single" = "multi"))]
    rw [if_neg (by decide : ¬("single" = "multi"))]
  · simp only [get_tools, hf]
    rw [if_neg (by decide : ¬("single" = "multi"))]
    rw [if_neg (by decide : ¬("single" = "multi"))]
  · simp only [get_tools, hf]
    rw [if_neg (by decide : ¬("single" = "multi"))]
    rw [if_pos ⟨hpath, henv⟩]
    simp

/-- Witness for C4: a concrete path with the default environment (whose
`allow_write=true` default is itself truthy) against a scrambled second
environment. -/
theorem get_tools_config_file_wins_witness :
    ("config.yml" : String) ≠ "" ∧ envAny defaultEnv = true ∧
    (⟨LogLevel.warning,
      "Both config file and environment variables are set. Using config file."⟩ : LogEntry) ∈
      (get_tools (fun _ => none) none defaultEnv none TOOL_REGISTRY "single" "config.yml").log :=
  ⟨by decide, rfl,
   (get_tools_config_file_wins (fun _ => none) none defaultEnv
       ⟨"X", "", "", [], false⟩ none TOOL_REGISTRY "config.yml" (by decide) rfl).2.2⟩

/-- The pattern `"Get.*"`. -/
def getStarPattern : Regex :=
  .seq (.chr 'G') (.seq (.chr 'e') (.seq (.chr 't') (.star .dot)))

/-- C5: regex disabling collects exactly the supplied names matched by some
pattern at the start of the name, case-insensitively (`"Get.*"` matches
`"GetShardsTool"` and its case variants but not `"IndexGetTool"`); and the
names supplied are those surviving the write filter: with `allow_write`
falsy, `process_tool_filter` is the disabling phase — whose regex hits are,
by definition, `process_regex_patterns` over its input registry's display
names — run on the write-filtered registry. -/
theorem process_regex_patterns_semantics :
    (∀ (regex_list : List Regex) (tool_names : List String) (n : String),
      n ∈ process_regex_patterns regex_list tool_names ↔
        n ∈ tool_names ∧ ∃ r ∈ regex_list, re_match r n = true) ∧
    re_match getStarPattern "GetShardsTool" = true ∧
    re_match getStarPattern "IndexGetTool" = false ∧
    re_match getStarPattern "gEtShArDsTooL" = true ∧
    (∀ (jsonLoads : String → Option (List (String × List String)))
       (dt tc dc : Option String) (dtr : Option (List Regex)) (aw : Option Bool)
       (fp : Option String) (config : Option FileConfig) (reg : Registry),
      truthyAllowWrite (effAllowWrite config aw) = false →
      (process_tool_filter jsonLoads dt tc dc dtr aw fp config reg).registry =
        (disable_phase (mkDisplayMap reg)
          (resolve_filters jsonLoads dt tc dc dtr aw config) (apply_write_filter reg)).1) := by
  refine ⟨?_, by decide, by decide, by decide, ptf_registry_write_filtered⟩
  intro regex_list tool_names n
  induction regex_list with
  | nil => simp [process_regex_patterns]
  | cons r rest ih =>
    simp only [process_regex_patterns, List.mem_append, List.mem_filter, ih,
      List.mem_cons]
    constructor
    · rintro (⟨hn, hm⟩ | ⟨hn, q, hq, hmq⟩)
      · exact ⟨hn, r, Or.inl rfl, hm⟩
      · exact ⟨hn, q, Or.inr hq, hmq⟩
    · rintro ⟨hn, q, hq | hq, hmq⟩
      · subst hq
        exact Or.inl ⟨hn, hmq⟩
      · exact Or.inr ⟨hn, q, hq, hmq⟩

/-- Witness for C5: the pattern list `["Get.*"]` over the two example names
collects exactly `"GetShardsTool"`, and the write-first factorization at the
`{A: GET, B: PUT}` scenario registry. -/
theorem process_regex_patterns_semantics_witness :
    "GetShardsTool" ∈ process_regex_patterns [getStarPattern] ["GetShardsTool", "IndexGetTool"] ∧
    (process_tool_filter (fun _ => none) none none none none (some false) none none
        writeScenarioReg).registry =
      (disable_phase (mkDisplayMap writeScenarioReg)
        (resolve_filters (fun _ => none) none none none none (some false) none)
        (apply_write_filter writeScenarioReg)).1 :=
  ⟨(process_regex_patterns_semantics.1 [getStarPattern] ["GetShardsTool", "IndexGetTool"]
      "GetShardsTool").mpr
    ⟨by decide, getStarPattern, List.Mem.head _, by decide⟩,
   process_regex_patterns_semantics.2.2.2.2 (fun _ => none) none none none none (some false)
     none none writeScenarioReg rfl⟩

/-- A gateway tool whose argument model rejects every arguments document
(as the pydantic constructor does for a structurally invalid document). -/
def rejectingTool : GatewayTool Unit :=
  ⟨some "T", fun _ => Except.error "validation failed", fun _ => []⟩

/-- Counterexample for C6: with tool `T` enabled and an arguments document
its argument model rejects, `call_tool` raises the validation error out of
the function — it does not return a textual error content block. -/
theorem call_tool_validation_raises_cex :
    call_tool [("T", rejectingTool)] "T" (Json.obj []) =
      Except.error (CallError.validationError "validation failed") ∧
    ¬ ∃ blocks, call_tool [("T", rejectingTool)] "T" (Json.obj []) = Except.ok blocks := by
  refine ⟨rfl, ?_⟩
  rintro ⟨blocks, h⟩
  rw [show call_tool [("T", rejectingTool)] "T" (Json.obj []) =
      Except.error (CallError.validationError "validation failed") from rfl] at h
  exact Except.noConfusion h

/-- C6 (amended): in the gateways' `call_tool`, an unresolvable display name
raises the unknown-or-disabled `ValueError`, and a structurally invalid
arguments document likewise raises the argument model's validation error out
of the function (it is not converted into a textual content block); only a
successful parse reaches the handler, whose blocks are returned. -/
theorem call_tool_dispatch {α : Type} (enabled : List (String × GatewayTool α))
    (name : String) (arguments : Json) :
    (find_tool enabled name = none →
      call_tool enabled name arguments =
        Except.error (CallError.unknownTool ("Unknown or disabled tool: " ++ name))) ∧
    (∀ key tool e, find_tool enabled name = some (key, tool) → key ≠ "" →
      tool.args_model arguments = Except.error e →
      call_tool enabled name arguments = Except.error (CallError.validationError e)) ∧
    (∀ key tool parsed, find_tool enabled name = some (key, tool) → key ≠ "" →
      tool.args_model arguments = Except.ok parsed →
      call_tool enabled name arguments = Except.ok (tool.func parsed)) := by
  refine ⟨?_, ?_, ?_⟩
  · intro h
    unfold call_tool
    rw [h]
  · intro key tool e hf hk he
    simp only [call_tool, hf]
    rw [if_neg hk]
    simp only [he]
  · intro key tool parsed hf hk hp
    simp only [call_tool, hf]
    rw [if_neg hk]
    simp only [hp]

/-- A gateway tool accepting every arguments document. -/
def acceptingTool : GatewayTool Unit :=
  ⟨some "U", fun _ => Except.ok (), fun _ => [⟨"text", "ok"⟩]⟩

/-- Witness for C6's amended statement at concrete inputs: an unknown name,
a rejected arguments document, and an accepted one. -/
theorem call_tool_dispatch_witness :
    call_tool [("U", acceptingTool)] "V" (Json.obj []) =
      Except.error (CallError.unknownTool ("Unknown or disabled tool: " ++ "V")) ∧
    call_tool [("U", acceptingTool), ("W", rejectingTool)] "T" (Json.obj []) =
      Except.error (CallError.validationError "validation failed") ∧
    call_tool [("U", acceptingTool)] "U" (Json.obj []) =
      Except.ok [⟨"text", "ok"⟩] :=
  ⟨(call_tool_dispatch [("U", acceptingTool)] "V" (Json.obj [])).1 rfl,
   (call_tool_dispatch [("U", acceptingTool), ("W", rejectingTool)] "T" (Json.obj [])).2.1
     "W" rejectingTool "validation failed" rfl (by decide) rfl,
   (call_tool_dispatch [("U", acceptingTool)] "U" (Json.obj [])).2.2
     "U" acceptingTool () rfl (by decide) rfl⟩

/-- Bind on a successful `Except` computation. -/
theorem except_bind_ok {α β : Type} (a : α) (f : α → Except String β) :
    (Except.ok a >>= f) = f a := rfl

/-- Bind on a failed `Except` computation. -/
theorem except_bind_error {α β : Type} (e : String) (f : α → Except String β) :
    ((Except.error e : Except String α) >>= f) = Except.error e := rfl

/-- Every successful run of the index-listing body yields one text block. -/
theorem list_indices_attempt_ok (v : Option Version) (args : ListIndicesArgs)
    (gR lR : Except String Json) (bs : List Content)
    (h : list_indices_attempt v args gR lR = Except.ok bs) :
    ∃ s, bs = [⟨"text", s⟩] := by
  unfold list_indices_attempt at h
  cases hc : check_tool_compatibility "ListIndexTool" v with
  | error m => rw [hc, except_bind_error] at h; exact Except.noConfusion h
  | ok u =>
    rw [hc, except_bind_ok] at h
    by_cases hidx : args.index ≠ ""
    · rw [if_pos hidx] at h
      cases gR with
      | error m => rw [except_bind_error] at h; exact Except.noConfusion h
      | ok j =>
        rw [except_bind_ok] at h
        injection h with h2
        exact ⟨_, h2.symm⟩
    · rw [if_neg hidx] at h
      cases lR with
      | error m => rw [except_bind_error] at h; exact Except.noConfusion h
      | ok j =>
        rw [except_bind_ok] at h
        by_cases hdet : args.include_detail = false
        · rw [if_pos hdet] at h
          cases he : extractIndexNames j with
          | error m => rw [he, except_bind_error] at h; exact Except.noConfusion h
          | ok ns =>
            rw [he, except_bind_ok] at h
            injection h with h2
            exact ⟨_, h2.symm⟩
        · rw [if_neg hdet] at h
          injection h with h2
          exact ⟨_, h2.symm⟩

/-- Every successful run of the mapping body yields one text block. -/
theorem get_index_mapping_attempt_ok (v : Option Version) (args : GetIndexMappingArgs)
    (mR : Except String Json) (bs : List Content)
    (h : get_index_mapping_attempt v args mR = Except.ok bs) :
    ∃ s, bs = [⟨"text", s⟩] := by
  unfold get_index_mapping_attempt at h
  cases hc : check_tool_compatibility "IndexMappingTool" v with
  | error m => rw [hc, except_bind_error] at h; exact Except.noConfusion h
  | ok u =>
    rw [hc, except_bind_ok] at h
    cases mR with
    | error m => rw [except_bind_error] at h; exact Except.noConfusion h
    | ok j =>
      rw [except_bind_ok] at h
      injection h with h2
      exact ⟨_, h2.symm⟩

/-- Every successful run of the search body yields one text block. -/
theorem search_index_attempt_ok (v : Option Version) (args : SearchIndexArgs)
    (sR : Except String Json) (bs : List Content)
    (h : search_index_attempt v args sR = Except.ok bs) :
    ∃ s, bs = [⟨"text", s⟩] := by
  unfold search_index_attempt at h
  cases hc : check_tool_compatibility "SearchIndexTool" v with
  | error m => rw [hc, except_bind_error] at h; exact Except.noConfusion h
  | ok u =>
    rw [hc, except_bind_ok] at h
    cases sR with
    | error m => rw [except_bind_error] at h; exact Except.noConfusion h
    | ok j =>
      rw [except_bind_ok] at h
      injection h with h2
      exact ⟨_, h2.symm⟩

/-- Every successful run of the shards body yields one text block. -/
theorem get_shards_attempt_ok (v : Option Version) (args : GetShardsArgs)
    (sR : Except String Json) (bs : List Content)
    (h : get_shards_attempt v args sR = Except.ok bs) :
    ∃ s, bs = [⟨"text", s⟩] := by
  unfold get_shards_attempt at h
  cases hc : check_tool_compatibility "GetShardsTool" v with
  | error m => rw [hc, except_bind_error] at h; exact Except.noConfusion h
  | ok u =>
    rw [hc, except_bind_ok] at h
    cases sR with
    | error m => rw [except_bind_error] at h; exact Except.noConfusion h
    | ok j =>
      rw [except_bind_ok] at h
      cases j with
      | obj fields =>
        dsimp only at h
        cases hv : dictGet? fields "error" with
        | some v2 =>
          rw [hv] at h
          injection h with h2
          exact ⟨_, h2.symm⟩
        | none =>
          rw [hv] at h
          by_cases hemp : fields.isEmpty = true
          · rw [if_pos hemp] at h
            injection h with h2
            exact ⟨_, h2.symm⟩
          · rw [if_neg hemp] at h
            exact Except.noConfusion h
      | arr shards =>
        dsimp only at h
        cases hrows : shards.foldlM (fun acc sh => do
            let r ← formatShardRow sh
            Except.ok (acc ++ r)) "" with
        | error m => rw [hrows, except_bind_error] at h; exact Except.noConfusion h
        | ok rows =>
          rw [hrows, except_bind_ok] at h
          injection h with h2
          exact ⟨_, h2.symm⟩
      | str s =>
        dsimp only at h
        by_cases hs : s = ""
        · rw [if_pos hs] at h
          injection h with h2
          exact ⟨_, h2.symm⟩
        · rw [if_neg hs] at h
          exact Except.noConfusion h
      | null => exact Except.noConfusion h
      | bool b => exact Except.noConfusion h
      | num n => exact Except.noConfusion h

/-- C7: each registered handler returns, for every input, a single text
content block and never raises; a compatibility-check failure or a backend
failure becomes one text block whose text is the handler's fixed operation
prefix followed by the failure text. -/
theorem registered_handlers_never_raise :
    (∀ (v : Option Version) (args : ListIndicesArgs) (gR lR : Except String Json),
      (∃ s, list_indices_tool v args gR lR = [⟨"text", s⟩]) ∧
      (∀ m, check_tool_compatibility "ListIndexTool" v = Except.error m →
        list_indices_tool v args gR lR = [⟨"text", "Error listing indices: " ++ m⟩]) ∧
      (∀ m, check_tool_compatibility "ListIndexTool" v = Except.ok () → args.index ≠ "" →
        gR = Except.error m →
        list_indices_tool v args gR lR = [⟨"text", "Error listing indices: " ++ m⟩]) ∧
      (∀ m, check_tool_compatibility "ListIndexTool" v = Except.ok () → args.index = "" →
        lR = Except.error m →
        list_indices_tool v args gR lR = [⟨"text", "Error listing indices: " ++ m⟩])) ∧
    (∀ (v : Option Version) (args : GetIndexMappingArgs) (mR : Except String Json),
      (∃ s, get_index_mapping_tool v args mR = [⟨"text", s⟩]) ∧
      (∀ m, check_tool_compatibility "IndexMappingTool" v = Except.error m →
        get_index_mapping_tool v args mR = [⟨"text", "Error getting mapping: " ++ m⟩]) ∧
      (∀ m, check_tool_compatibility "IndexMappingTool" v = Except.ok () →
        mR = Except.error m →
        get_index_mapping_tool v args mR = [⟨"text", "Error getting mapping: " ++ m⟩])) ∧
    (∀ (v : Option Version) (args : SearchIndexArgs) (sR : Except String Json),
      (∃ s, search_index_tool v args sR = [⟨"text", s⟩]) ∧
      (∀ m, check_tool_compatibility "SearchIndexTool" v = Except.error m →
        search_index_tool v args sR = [⟨"text", "Error searching index: " ++ m⟩]) ∧
      (∀ m, check_tool_compatibility "SearchIndexTool" v = Except.ok () →
        sR = Except.error m →
        search_index_tool v args sR = [⟨"text", "Error searching index: " ++ m⟩])) ∧
    (∀ (v : Option Version) (args : GetShardsArgs) (sR : Except String Json),
      (∃ s, get_shards_tool v args sR = [⟨"text", s⟩]) ∧
      (∀ m, check_tool_compatibility "GetShardsTool" v = Except.error m →
        get_shards_tool v args sR =
          [⟨"text", "Error getting shards information: " ++ m⟩]) ∧
      (∀ m, check_tool_compatibility "GetShardsTool" v = Except.ok () →
        sR = Except.error m →
        get_shards_tool v args sR =
          [⟨"text", "Error getting shards information: " ++ m⟩])) := by
  refine ⟨?_, ?_, ?_, ?_⟩
  · intro v args gR lR
    refine ⟨?_, ?_, ?_, ?_⟩
    · cases ha : list_indices_attempt v args gR lR with
      | ok bs =>
        obtain ⟨s, rfl⟩ := list_indices_attempt_ok v args gR lR bs ha
        exact ⟨s, by unfold list_indices_tool; rw [ha]⟩
      | error e =>
        exact ⟨"Error listing indices: " ++ e, by unfold list_indices_tool; rw [ha]⟩
    · intro m hc
      have ha : list_indices_attempt v args gR lR = Except.error m := by
        unfold list_indices_attempt
        rw [hc, except_bind_error]
      unfold list_indices_tool
      rw [ha]
    · intro m hc hidx he
      have ha : list_indices_attempt v args gR lR = Except.error m := by
        unfold list_indices_attempt
        rw [hc, except_bind_ok, if_pos hidx, he, except_bind_error]
      unfold list_indices_tool
      rw [ha]
    · intro m hc hidx he
      have ha : list_indices_attempt v args gR lR = Except.error m := by
        unfold list_indices_attempt
        rw [hc, except_bind_ok, if_neg (fun hne => hne hidx), he, except_bind_error]
      unfold list_indices_tool
      rw [ha]
  · intro v args mR
    refine ⟨?_, ?_, ?_⟩
    · cases ha : get_index_mapping_attempt v args mR with
      | ok bs =>
        obtain ⟨s, rfl⟩ := get_index_mapping_attempt_ok v args mR bs ha
        exact ⟨s, by unfold get_index_mapping_tool; rw [ha]⟩
      | error e =>
        exact ⟨"Error getting mapping: " ++ e, by unfold get_index_mapping_tool; rw [ha]⟩
    · intro m hc
      have ha : get_index_mapping_attempt v args mR = Except.error m := by
        unfold get_index_mapping_attempt
        rw [hc, except_bind_error]
      unfold get_index_mapping_tool
      rw [ha]
    · intro m hc he
      have ha : get_index_mapping_attempt v args mR = Except.error m := by
        unfold get_index_mapping_attempt
        rw [hc, except_bind_ok, he, except_bind_error]
      unfold get_index_mapping_tool
      rw [ha]
  · intro v args sR
    refine ⟨?_, ?_, ?_⟩
    · cases ha : search_index_attempt v args sR with
      | ok bs =>
        obtain ⟨s, rfl⟩ := search_index_attempt_ok v args sR bs ha
        exact ⟨s, by unfold search_index_tool; rw [ha]⟩
      | error e =>
        exact ⟨"Error searching index: " ++ e, by unfold search_index_tool; rw [ha]⟩
    · intro m hc
      have ha : search_index_attempt v args sR = Except.error m := by
        unfold search_index_attempt
        rw [hc, except_bind_error]
      unfold search_index_tool
      rw [ha]
    · intro m hc he
      have ha : search_index_attempt v args sR = Except.error m := by
        unfold search_index_attempt
        rw [hc, except_bind_ok, he, except_bind_error]
      unfold search_index_tool
      rw [ha]
  · intro v args sR
    refine ⟨?_, ?_, ?_⟩
    · cases ha : get_shards_attempt v args sR with
      | ok bs =>
        obtain ⟨s, rfl⟩ := get_shards_attempt_ok v args sR bs ha
        exact ⟨s, by unfold get_shards_tool; rw [ha]⟩
      | error e =>
        exact ⟨"Error getting shards information: " ++ e, by unfold get_shards_tool; rw [ha]⟩
    · intro m hc
      have ha : get_shards_attempt v args sR = Except.error m := by
        unfold get_shards_attempt
        rw [hc, except_bind_error]
      unfold get_shards_tool
      rw [ha]
    · intro m hc he
      have ha : get_shards_attempt v args sR = Except.error m := by
        unfold get_shards_attempt
        rw [hc, except_bind_ok, he, except_bind_error]
      unfold get_shards_tool
      rw [ha]

/-- Witness for C7 at concrete inputs: the ListIndexTool handler on a
too-old backend version (the spec's `6.9.0` versus `min_version 7.0.0`)
and the other three handlers on a concrete transport failure. -/
theorem registered_handlers_never_raise_witness :
    list_indices_tool (some ⟨6, 9, 0⟩) ⟨"", "", false⟩ (Except.error "t1") (Except.error "t2") =
      [⟨"text", "Error listing indices: Tool 'ListIndexTool' is not supported for this Elasticsearch version (current version: 6.9.0). Supported version: 7.0.0 or later."⟩] ∧
    get_index_mapping_tool none ⟨"", "idx"⟩ (Except.error "connection refused") =
      [⟨"text", "Error getting mapping: connection refused"⟩] ∧
    search_index_tool none ⟨"", "idx", Json.obj []⟩ (Except.error "connection refused") =
      [⟨"text", "Error searching index: connection refused"⟩] ∧
    get_shards_tool none ⟨"", "idx"⟩ (Except.error "connection refused") =
      [⟨"text", "Error getting shards information: connection refused"⟩] :=
  ⟨(registered_handlers_never_raise.1 (some ⟨6, 9, 0⟩) ⟨"", "", false⟩
      (Except.error "t1") (Except.error "t2")).2.1
    "Tool 'ListIndexTool' is not supported for this Elasticsearch version (current version: 6.9.0). Supported version: 7.0.0 or later."
    (by rfl),
   (registered_handlers_never_raise.2.1 none ⟨"", "idx"⟩
      (Except.error "connection refused")).2.2 "connection refused" (by rfl) rfl,
   (registered_handlers_never_raise.2.2.1 none ⟨"", "idx", Json.obj []⟩
      (Except.error "connection refused")).2.2 "connection refused" (by rfl) rfl,
   (registered_handlers_never_raise.2.2.2 none ⟨"", "idx"⟩
      (Except.error "connection refused")).2.2 "connection refused" (by rfl) rfl⟩

/-- A tool whose display name differs from its registry key. -/
def renamedTool : ToolInfo :=
  ⟨"D", "", ⟨some [("index", Json.obj [])], []⟩, none, none, "GET"⟩

/-- A registry holding `renamedTool` under the internal key `"K"`. -/
def renamedReg : Registry := [("K", renamedTool)]

/-- Counterexample for C8: in single mode the returned mapping is keyed by
display name, so with a tool stored under key `"K"` but displayed as `"D"`,
the enabled set's key `"D"` is not a key of the input registry. -/
theorem get_tools_single_keys_cex :
    ((get_tools (fun _ => none) none defaultEnv none renamedReg "single" "").enabled.map
      Prod.fst = ["D"]) ∧
    ¬ ("D" ∈ renamedReg.map Prod.fst) := by
  constructor
  · rfl
  · decide

/-- C8 (amended): in multi mode `get_tools` returns the registry itself, so
the keys are the input's internal keys; in single mode the returned mapping
is keyed by *display name*: every key of the enabled set is the display name
of some version-compatible tool surviving filtering (it equals the internal
key only when the tool's display name equals its key, as in the static
registry). -/
theorem get_tools_enabled_keys
    (jsonLoads : String → Option (List (String × List String)))
    (loadedConfig : Option FileConfig) (env : EnvConfig) (version : Option Version)
    (reg : Registry) (path : String) :
    (get_tools jsonLoads loadedConfig env version reg "multi" path).enabled = reg ∧
    (∀ n, n ∈ (get_tools jsonLoads loadedConfig env version reg "single" path).enabled.map
        Prod.fst →
      ∃ p ∈ (get_tools_filtered jsonLoads loadedConfig env path reg).registry,
        is_tool_compatible version p.2 = true ∧ p.2.display_name = n) := by
  constructor
  · rfl
  · intro n hn
    have henabled : (get_tools jsonLoads loadedConfig env version reg "single" path).enabled =
        enableFold version (get_tools_filtered jsonLoads loadedConfig env path reg).registry
          [] := by
      unfold get_tools
      rw [if_neg (by decide : ¬("single" = "multi"))]
    rw [henabled, mem_keys_enableFold] at hn
    rcases hn with h | h
    · simp at h
    · exact h

/-- Witness for C8's amended statement: the key `"D"` of the enabled set over
`renamedReg` is the display name of the surviving tool stored under `"K"`. -/
theorem get_tools_enabled_keys_witness :
    ∃ p ∈ (get_tools_filtered (fun _ => none) none defaultEnv "" renamedReg).registry,
      is_tool_compatible none p.2 = true ∧ p.2.display_name = "D" :=
  (get_tools_enabled_keys (fun _ => none) none defaultEnv none renamedReg "").2 "D" (by decide)

/-- A tool whose advertised schema carries the shared base field next to its
own `index` field. -/
def sharedFieldTool : ToolInfo :=
  ⟨"SearchTool", "",
   ⟨some [("elasticsearch_cluster_name", Json.obj []), ("index", Json.obj [])], []⟩,
   none, none, "GET"⟩

/-- A registry holding `sharedFieldTool` under key `"K9"`. -/
def sharedFieldReg : Registry := [("K9", sharedFieldTool)]

/-- The field names of a tool's schema `properties` mapping. -/
def propKeys (t : ToolInfo) : Option (List String) :=
  t.input_schema.properties.map (fun ps => ps.map Prod.fst)

/-- C9 is a code bug (shallow-copy aliasing): after a single-mode `get_tools`
run, the input registry's own nested `properties` mapping has lost the shared
base field — the input registry is mutated, against the intent of the
`info.copy()` / `schema.copy()` calls.  The first conjunct evaluates the
post-call state of the registry argument at the failing input; the second is
its pristine pre-call state; the third states they differ. -/
theorem get_tools_mutates_input_schema :
    ((get_tools (fun _ => none) none defaultEnv none sharedFieldReg "single" "").registryAfter.map
        (fun p => propKeys p.2) = [some ["index"]]) ∧
    (sharedFieldReg.map (fun p => propKeys p.2) =
      [some ["elasticsearch_cluster_name", "index"]]) ∧
    ([some ["index"]] : List (Option (List String))) ≠
      [some ["elasticsearch_cluster_name", "index"]] := by
  refine ⟨rfl, rfl, ?_⟩
  decide

/-- A loaded filter configuration document whose `tool_filters` section has
no (or an empty, falsy) `settings` entry and no disabling lists. -/
def emptySettingsConfig : FileConfig := ⟨[], ⟨[], [], [], none⟩⟩

/-- C10: supplying a config file whose `tool_filters` has no (or an empty)
`settings` entry leaves `allow_write` at its falsy `None` default, so the
write filter runs and every non-GET tool is dropped; with no config file the
environment default `allow_write=true` keeps them.  Hence, over a registry
with distinct display names containing a version-compatible write tool, the
otherwise-empty config file yields a strictly smaller enabled set than no
configuration at all. -/
theorem empty_config_strictly_smaller
    (jsonLoads : String → Option (List (String × List String)))
    (version : Option Version) (reg : Registry) (k : String) (t : ToolInfo)
    (hmem : (k, t) ∈ reg) (hwrite : hasGET t.http_methods = false)
    (hcompat : is_tool_compatible version t = true)
    (hnodup : (reg.map (fun p => p.2.display_name)).Nodup) :
    (∀ p ∈ (get_tools_filtered jsonLoads (some emptySettingsConfig) defaultEnv "conf.yaml"
        reg).registry, hasGET p.2.http_methods = true) ∧
    (∀ n, n ∈ (get_tools jsonLoads (some emptySettingsConfig) defaultEnv version reg "single"
          "conf.yaml").enabled.map Prod.fst →
      n ∈ (get_tools jsonLoads none defaultEnv version reg "single" "").enabled.map Prod.fst) ∧
    t.display_name ∈
      (get_tools jsonLoads none defaultEnv version reg "single" "").enabled.map Prod.fst ∧
    t.display_name ∉
      (get_tools jsonLoads (some emptySettingsConfig) defaultEnv version reg "single"
        "conf.yaml").enabled.map Prod.fst := by
  have hfW : (get_tools_filtered jsonLoads (some emptySettingsConfig) defaultEnv "conf.yaml"
      reg).registry = apply_write_filter reg := rfl
  have hfN : (get_tools_filtered jsonLoads none defaultEnv "" reg).registry = reg := rfl
  have hW : (get_tools jsonLoads (some emptySettingsConfig) defaultEnv version reg "single"
      "conf.yaml").enabled = enableFold version (apply_write_filter reg) [] := by
    unfold get_tools
    rw [if_neg (by decide : ¬("single" = "multi"))]
    rfl
  have hN : (get_tools jsonLoads none defaultEnv version reg "single" "").enabled =
      enableFold version reg [] := by
    unfold get_tools
    rw [if_neg (by decide : ¬("single" = "multi"))]
    rfl
  refine ⟨?_, ?_, ?_, ?_⟩
  · intro p hp
    rw [hfW] at hp
    have h2 : p ∈ List.filter (fun q => hasGET q.2.http_methods) reg := hp
    simpa using List.of_mem_filter h2
  · intro n hn
    rw [hW, mem_keys_enableFold] at hn
    rw [hN, mem_keys_enableFold]
    rcases hn with h | ⟨p, hp, hcp, hdp⟩
    · simp at h
    · exact Or.inr ⟨p, List.mem_of_mem_filter hp, hcp, hdp⟩
  · rw [hN, mem_keys_enableFold]
    exact Or.inr ⟨(k, t), hmem, hcompat, rfl⟩
  · rw [hW, mem_keys_enableFold]
    rintro (h | ⟨p, hp, hcp, hdp⟩)
    · simp at h
    · have hpreg : p ∈ reg := List.mem_of_mem_filter hp
      have hpget : hasGET p.2.http_methods = true := by
        have h2 : p ∈ List.filter (fun q => hasGET q.2.http_methods) reg := hp
        simpa using List.of_mem_filter h2
      have heq : p = (k, t) :=
        List.inj_on_of_nodup_map hnodup hpreg hmem hdp
      rw [heq] at hpget
      rw [hpget] at hwrite
      exact Bool.noConfusion hwrite

/-- Witness for C10 at the `{A: GET, B: PUT}` scenario registry: `B` is
enabled without a config file and dropped by the otherwise-empty config
file. -/
theorem empty_config_strictly_smaller_witness :
    ("B", writeScenarioB) ∈ writeScenarioReg ∧
    hasGET writeScenarioB.http_methods = false ∧
    is_tool_compatible none writeScenarioB = true ∧
    (writeScenarioReg.map (fun p => p.2.display_name)).Nodup ∧
    "B" ∈ (get_tools (fun _ => none) none defaultEnv none writeScenarioReg "single"
      "").enabled.map Prod.fst ∧
    "B" ∉ (get_tools (fun _ => none) (some emptySettingsConfig) defaultEnv none
      writeScenarioReg "single" "conf.yaml").enabled.map Prod.fst := by
  have h := empty_config_strictly_smaller (fun _ => none) none writeScenarioReg "B"
    writeScenarioB (by exact List.Mem.tail _ (List.Mem.head _)) rfl rfl (by decide)
  exact ⟨List.Mem.tail _ (List.Mem.head _), rfl, rfl, by decide, h.2.2.1, h.2.2.2⟩
